import Mathlib

/-!
Shallow embedding of the arbitrage-hunter core (src/arbitrage.py, src/models.py,
src/position_manager.py, src/agent.py) and proofs about the frozen claims.

Conventions of the embedding:
* Python floats are modelled as exact rationals (ℚ).
* Python `round(x, n)` (round-half-to-even) is modelled by `pyRound`.
* `datetime` timestamps are modelled as natural numbers (seconds).
* `random.uniform` outcomes and `uuid.uuid4()` draws are modelled as explicit
  parameters: a rational multiplier for the resolution simulation and a
  counter-indexed injective id supply for uuid4.
* The MongoDB collections are modelled as Lean lists of documents.
-/

namespace ArbHunter

/-- Round-half-to-even to an integer, the rounding mode of Python `round`. -/
def bankersRound (x : ℚ) : ℤ :=
  let f := ⌊x⌋
  let r := x - f
  if r < 1/2 then f
  else if 1/2 < r then f + 1
  else if f % 2 = 0 then f else f + 1

/-- Python `round(x, nd)` for nonnegative `nd`. -/
def pyRound (nd : ℕ) (x : ℚ) : ℚ :=
  (bankersRound (x * 10 ^ nd) : ℚ) / 10 ^ nd

/-! ### Stake-sizing solver (src/arbitrage.py, `calculate_arbitrage`)

The two hedge directions share one formula shape; the code computes, for a
direction with leg prices `p` (the "yes" leg) and `q` (the "no" leg) and
notional `N`:
  `bet_leg1 = N * p / (p + q)`, `bet_leg2 = N * q / (p + q)`,
  `payout = bet_leg1 / p`, `profit = payout - N`,
  `profit_pct = profit / N * 100`.
-/

def bet_leg1 (N p q : ℚ) : ℚ := N * p / (p + q)

def bet_leg2 (N p q : ℚ) : ℚ := N * q / (p + q)

def payout_of (N p q : ℚ) : ℚ := bet_leg1 N p q / p

def profit_of (N p q : ℚ) : ℚ := payout_of N p q - N

def profit_pct_of (N p q : ℚ) : ℚ := profit_of N p q / N * 100

/-- The dictionary returned by `calculate_arbitrage`; `platform_a`,
`platform_b` and `event_name` are filled in later by the caller
(`find_arbitrage_opportunities`), exactly as in the Python dict. -/
structure ArbResult where
  platform_a : String := ""
  platform_b : String := ""
  event_name : String := ""
  platform_a_outcome : String
  platform_a_price : ℚ
  platform_b_outcome : String
  platform_b_price : ℚ
  bet_amount_a : ℚ
  bet_amount_b : ℚ
  total_investment : ℚ
  guaranteed_payout : ℚ
  profit : ℚ
  profit_percentage : ℚ
  combined_probability : ℚ
deriving DecidableEq, Repr

/-- The direction-1 result dict (bet Yes on A at `ya`, No on B at `nb`). -/
def dir1Doc (ya nb N : ℚ) : ArbResult :=
  { platform_a_outcome := "yes"
    platform_a_price := ya
    platform_b_outcome := "no"
    platform_b_price := nb
    bet_amount_a := pyRound 2 (bet_leg1 N ya nb)
    bet_amount_b := pyRound 2 (bet_leg2 N ya nb)
    total_investment := N
    guaranteed_payout := pyRound 2 (payout_of N ya nb)
    profit := pyRound 2 (profit_of N ya nb)
    profit_percentage := pyRound 4 (profit_pct_of N ya nb)
    combined_probability := pyRound 4 (ya + nb) }

/-- The direction-2 result dict (bet Yes on B at `yb`, No on A at `na`);
`bet_amount_a` carries the stake of the B-side "yes" leg, exactly as in the
source (`bet_amount_a = bet_b_2`). -/
def dir2Doc (yb na N : ℚ) : ArbResult :=
  { platform_a_outcome := "yes"
    platform_a_price := yb
    platform_b_outcome := "no"
    platform_b_price := na
    bet_amount_a := pyRound 2 (bet_leg1 N yb na)
    bet_amount_b := pyRound 2 (bet_leg2 N yb na)
    total_investment := N
    guaranteed_payout := pyRound 2 (payout_of N yb na)
    profit := pyRound 2 (profit_of N yb na)
    profit_percentage := pyRound 4 (profit_pct_of N yb na)
    combined_probability := pyRound 4 (yb + na) }

/-- `calculate_arbitrage(yes_price_a, no_price_b, yes_price_b, no_price_a,
total_investment)`.  In the source, `profit_pct_1` is non-`None` iff
`yes_price_a + no_price_b < 1`, and the selection test is
`profit_pct_1 is not None and (profit_pct_2 is None or profit_pct_1 > profit_pct_2)`,
with an `elif profit_pct_2 is not None` fallback. -/
def calculate_arbitrage (yes_price_a no_price_b yes_price_b no_price_a N : ℚ) :
    Option ArbResult :=
  if yes_price_a + no_price_b < 1 ∧
      (¬ yes_price_b + no_price_a < 1 ∨
        profit_pct_of N yes_price_b no_price_a < profit_pct_of N yes_price_a no_price_b) then
    some (dir1Doc yes_price_a no_price_b N)
  else if yes_price_b + no_price_a < 1 then
    some (dir2Doc yes_price_b no_price_a N)
  else
    none

/-! ### Event matcher (src/arbitrage.py, `find_arbitrage_opportunities`) -/

/-- A normalized quote `{market_id, event_name, yes_price, no_price}`. -/
structure Quote where
  market_id : String
  event_name : String
  yes_price : ℚ
  no_price : ℚ
deriving DecidableEq, Repr

/-- The straight single-quote character `'` (U+0027). -/
def squote : Char := Char.ofNat 39

/-- The straight double-quote character (U+0022). -/
def dquote : Char := Char.ofNat 34

/-- `str.lower()`, modelled character-wise. -/
def pyLower (s : String) : String := String.mk (s.data.map Char.toLower)

/-- `str.strip()`: drop whitespace from both ends. -/
def pyStrip (s : String) : String :=
  String.mk (((s.data.dropWhile Char.isWhitespace).reverse.dropWhile
    Char.isWhitespace).reverse)

/-- `normalize_name`: `name.lower().strip().replace("'", "").replace('"', "")`.
Replacing a one-character substring by the empty string is removal of that
character, so the two `replace` calls are modelled by a character filter. -/
def normalize_name (name : String) : String :=
  String.mk ((pyStrip (pyLower name)).data.filter (fun c => c != squote && c != dquote))

/-- The dict comprehension `{normalize_name(p["event_name"]): p for p in
kalshi_prices}`: a later entry with the same key overwrites an earlier one, so
lookup returns the last quote whose normalized name matches. -/
def kalshi_lookup (kalshi_prices : List Quote) (key : String) : Option Quote :=
  (kalshi_prices.filter (fun p => normalize_name p.event_name == key)).getLast?

/-- The venue-assignment step (src/arbitrage.py lines 130-154): direction 1 is
inferred from `abs(arb["platform_a_price"] - pm_market["yes_price"]) < 0.001`,
and `event_name` is set to the original Polymarket name afterwards. -/
def label_direction (arb : ArbResult) (pm_market : Quote) : ArbResult :=
  if |arb.platform_a_price - pm_market.yes_price| < 1/1000 then
    { arb with
      platform_a := "polymarket", platform_b := "kalshi"
      platform_a_outcome := "yes", platform_b_outcome := "no"
      event_name := pm_market.event_name }
  else
    { arb with
      platform_a := "kalshi", platform_b := "polymarket"
      platform_a_outcome := "yes", platform_b_outcome := "no"
      event_name := pm_market.event_name }

/-- `find_arbitrage_opportunities(polymarket_prices, kalshi_prices)`:
for each Polymarket quote whose normalized name has a Kalshi counterpart,
call the solver with `(pm.yes, kalshi.no, kalshi.yes, pm.no)` and the default
notional 100, keep results with positive `profit_percentage`, and label the
venues. -/
def find_arbitrage_opportunities (polymarket_prices kalshi_prices : List Quote) :
    List ArbResult :=
  polymarket_prices.filterMap (fun pm_market =>
    match kalshi_lookup kalshi_prices (normalize_name pm_market.event_name) with
    | none => none
    | some kalshi_market =>
      match calculate_arbitrage pm_market.yes_price kalshi_market.no_price
          kalshi_market.yes_price pm_market.no_price 100 with
      | none => none
      | some arb =>
        if 0 < arb.profit_percentage then some (label_direction arb pm_market)
        else none)

/-! ### Opportunity store (src/models.py `create_arbitrage_opportunity_doc`,
src/arbitrage.py `store_arbitrage_opportunities`)

`uuid.uuid4()` is modelled as an injective counter-indexed id supply: each
draw consumes one counter value, mirroring that distinct draws are (with
probability 1) distinct. -/

/-- A fresh id for the `n`-th uuid4 draw. -/
def uuid4 (n : ℕ) : String := "uuid-" ++ toString n

/-- The stored opportunity document.  `mongo_id` is the Python `_id` field. -/
structure OppDoc where
  mongo_id : String
  opportunity_id : String
  event_name : String
  platform_a : String
  platform_a_price : ℚ
  platform_b : String
  platform_b_price : ℚ
  profit_percentage : ℚ
  bet_amount_a : ℚ
  bet_amount_b : ℚ
  detected_at : ℕ
  status : String
deriving DecidableEq, Repr

/-- `create_arbitrage_opportunity_doc`: when `opportunity_id` is not supplied,
`_id` and `opportunity_id` are two separate `str(uuid.uuid4())` evaluations,
so they consume two counter values (and hence differ).  Returns the document
and the advanced uuid counter. -/
def create_arbitrage_opportunity_doc (event_name platform_a : String)
    (platform_a_price : ℚ) (platform_b : String)
    (platform_b_price profit_percentage bet_amount_a bet_amount_b : ℚ)
    (opportunity_id : Option String) (now ctr : ℕ) : OppDoc × ℕ :=
  match opportunity_id with
  | some oid =>
    (⟨oid, oid, event_name, platform_a, platform_a_price, platform_b,
      platform_b_price, profit_percentage, bet_amount_a, bet_amount_b,
      now, "active"⟩, ctr)
  | none =>
    (⟨uuid4 ctr, uuid4 (ctr + 1), event_name, platform_a, platform_a_price,
      platform_b, platform_b_price, profit_percentage, bet_amount_a,
      bet_amount_b, now, "active"⟩, ctr + 2)

/-- `update_many({"status": "active", "detected_at": {"$lt": cutoff}},
{"$set": {"status": "expired"}})` with `cutoff = now - 5 minutes`. -/
def expire_stale (now : ℕ) (db : List OppDoc) : List OppDoc :=
  db.map (fun d =>
    if d.status = "active" ∧ d.detected_at + 300 < now then
      { d with status := "expired" }
    else d)

/-- `update_one({"opportunity_id": id}, {"$set": doc}, upsert=True)`:
replace every document with this `opportunity_id` if one exists, else append. -/
def upsert_opportunity (db : List OppDoc) (doc : OppDoc) : List OppDoc :=
  if db.any (fun d => d.opportunity_id == doc.opportunity_id) then
    db.map (fun d => if d.opportunity_id == doc.opportunity_id then doc else d)
  else db ++ [doc]

/-- `store_arbitrage_opportunities(opportunities)`: expire stale actives, then
create a document for each opportunity (never passing an `opportunity_id`)
and upsert it.  The uuid counter is threaded through. -/
def store_arbitrage_opportunities (opportunities : List ArbResult)
    (db : List OppDoc) (now ctr : ℕ) : List OppDoc × ℕ :=
  opportunities.foldl (fun acc opp =>
    let dc := create_arbitrage_opportunity_doc opp.event_name opp.platform_a
      opp.platform_a_price opp.platform_b opp.platform_b_price
      opp.profit_percentage opp.bet_amount_a opp.bet_amount_b none now acc.2
    (upsert_opportunity acc.1 dc.1, dc.2)) (expire_stale now db, ctr)

/-! ### Position lifecycle (src/models.py `create_position_doc`,
src/position_manager.py `update_position_state`, `monitor_positions`) -/

/-- A tracked position document (the fields the lifecycle logic touches). -/
structure Position where
  position_id : String
  event_name : String
  platform_a : String
  platform_b : String
  amount_bet_a : ℚ
  amount_bet_b : ℚ
  target_profit : ℚ
  expiration_date : Option ℕ
  market_type : String
  state : String
  created_at : ℕ
  last_checked : ℕ
  actual_profit : Option ℚ
  resolved_at : Option ℕ
deriving DecidableEq, Repr

/-- `update_position_state(position_id, new_state, actual_profit)` applied to
one matching document: always sets `state` and `last_checked`; sets
`actual_profit` and `resolved_at` only when `actual_profit is not None`. -/
def update_position_state (now : ℕ) (p : Position) (new_state : String)
    (actual_profit : Option ℚ) : Position :=
  match actual_profit with
  | some ap =>
    { p with
      state := new_state
      last_checked := now
      actual_profit := some ap
      resolved_at := some now }
  | none => { p with state := new_state, last_checked := now }

/-- `position["state"] in ["watching", "entered"]` — the scan filter of
`monitor_positions`. -/
def is_active_position (p : Position) : Prop :=
  p.state = "watching" ∨ p.state = "entered"

instance (p : Position) : Decidable (is_active_position p) := by
  unfold is_active_position; infer_instance

/-- `datetime.utcnow() > exp_date` for a position carrying an expiration;
false when `expiration_date` is absent. -/
def is_past_expiration (now : ℕ) (p : Position) : Prop :=
  match p.expiration_date with
  | some e => e < now
  | none => False

instance (now : ℕ) (p : Position) : Decidable (is_past_expiration now p) := by
  unfold is_past_expiration
  cases p.expiration_date with
  | none => exact inferInstance
  | some e => exact inferInstance

/-- One iteration of the `monitor_positions` loop body on a single cursor
document.  `res` is the draw of `random.uniform(0.8, 1.2)` used by the
simulated resolution (modelled as an explicit oracle input).  Returns the
updated document and whether it was transitioned (counted in `updated`). -/
def monitor_step (now : ℕ) (res : ℚ) (p : Position) : Position × Bool :=
  if is_active_position p then
    match p.expiration_date with
    | some e =>
      if e < now then
        (update_position_state now p "expired" (some (p.target_profit * res)), true)
      else ({ p with last_checked := now }, false)
    | none => ({ p with last_checked := now }, false)
  else (p, false)

/-- `monitor_positions()`: scan the collection, update each active document in
place, and return the new collection together with the `updated` count. -/
def monitor_positions (now : ℕ) (res : ℚ) (db : List Position) :
    List Position × ℕ :=
  (db.map (fun p => (monitor_step now res p).1),
   db.countP (fun p => (monitor_step now res p).2))

/-! ### Performance aggregation (src/position_manager.py
`calculate_historical_performance`, src/models.py
`create_market_performance_doc`) -/

/-- A `market_type_performance` document. -/
structure PerfDoc where
  market_type : String
  opportunities_found : ℕ
  profitable_arbs : ℕ
  avg_profit_pct : ℚ
  success_rate : ℚ
deriving DecidableEq, Repr

/-- `create_market_performance_doc`: `success_rate = profitable_arbs /
opportunities_found * 100` when `opportunities_found > 0`, else `0`. -/
def create_market_performance_doc (market_type : String)
    (opportunities_found profitable_arbs : ℕ) (avg_profit_pct : ℚ) : PerfDoc :=
  { market_type := market_type
    opportunities_found := opportunities_found
    profitable_arbs := profitable_arbs
    avg_profit_pct := avg_profit_pct
    success_rate :=
      if 0 < opportunities_found then
        (profitable_arbs : ℚ) / (opportunities_found : ℚ) * 100
      else 0 }

/-- The `$group` pipeline of `calculate_historical_performance`: group all
positions (all states) by `market_type`; per group count documents, count
those with `target_profit > 0`, and average `target_profit`; emit one
performance document per distinct `market_type`. -/
def calculate_historical_performance (db : List Position) : List PerfDoc :=
  ((db.map (fun p => p.market_type)).dedup).map (fun t =>
    create_market_performance_doc t
      (db.filter (fun p => p.market_type == t)).length
      ((db.filter (fun p => p.market_type == t)).filter
        (fun p => decide (0 < p.target_profit))).length
      (if (db.filter (fun p => p.market_type == t)).length = 0 then 0
       else ((db.filter (fun p => p.market_type == t)).map
           (fun p => p.target_profit)).sum
         / ((db.filter (fun p => p.market_type == t)).length : ℚ)))

/-! ### Resilient fetch orchestrator (src/agent.py, `_fetch_with_retry`) -/

/-- A task-log entry (the fields the retry logic writes). -/
structure TaskLog where
  action : String
  status : String
  error : Option String
deriving DecidableEq, Repr

/-- The `log_task("fetch_data", "retry", ...)` entry written before a backoff
sleep. -/
def retry_log (e : String) : TaskLog := ⟨"fetch_data", "retry", some e⟩

/-- The `log_task("fetch_data", "failure", ...)` entry written when retries
are exhausted. -/
def failure_log (e : String) : TaskLog := ⟨"fetch_data", "failure", some e⟩

/-- The body of `_fetch_with_retry`'s `for attempt in range(max_retries)`
loop, fuelled by the number of remaining iterations (`fuel = max_retries -
attempt`).  `fetch i` is the outcome of the wrapped operation on attempt `i`:
`Except.error e` models an exception (including the simulated API failure),
`Except.ok none` models a `None` result (the loop just continues, no sleep),
`Except.ok (some r)` a successful fetch.  Returns the result, the list of
backoff sleeps performed (in seconds), and the task-log entries written.
The guard `attempt < max_retries - 1` is rendered as `attempt + 1 <
max_retries`. -/
def fetch_go {α : Type} (fetch : ℕ → Except String (Option α))
    (max_retries delay : ℕ) : ℕ → ℕ → Option α × List ℕ × List TaskLog
  | _, 0 => (none, [], [])
  | attempt, fuel + 1 =>
    match fetch attempt with
    | Except.ok (some r) => (some r, [], [])
    | Except.ok none => fetch_go fetch max_retries delay (attempt + 1) fuel
    | Except.error e =>
      if attempt + 1 < max_retries then
        let rest := fetch_go fetch max_retries delay (attempt + 1) fuel
        (rest.1, delay * 2 ^ attempt :: rest.2.1, retry_log e :: rest.2.2)
      else (none, [], [failure_log e])

/-- `_fetch_with_retry(fetch_func, platform, max_retries)` with initial
`delay = self.retry_delay`. -/
def fetch_with_retry {α : Type} (fetch : ℕ → Except String (Option α))
    (max_retries delay : ℕ) : Option α × List ℕ × List TaskLog :=
  fetch_go fetch max_retries delay 0 max_retries

/-! ## Claims -/

/-- C1: For every input to the stake-sizing solver (`calculate_arbitrage`)
with notional `N`: if both hedge directions have combined price ≥ 1 the
solver returns `None`; for any direction with combined cost `c < 1` the
pre-rounding stakes satisfy `stake_leg1 + stake_leg2 = N` and
`profit = N*(1/c - 1)`; and every returned result is one of the two direction
documents, whose currency fields are rounded to 2 decimal places and whose
percentage fields to 4. -/
theorem C1_stake_sizing (ya nb yb na N : ℚ)
    (hya : 0 < ya) (hnb : 0 < nb) (hyb : 0 < yb) (hna : 0 < na) (hN : 0 < N) :
    ((1 ≤ ya + nb ∧ 1 ≤ yb + na) → calculate_arbitrage ya nb yb na N = none)
    ∧ (ya + nb < 1 →
        bet_leg1 N ya nb + bet_leg2 N ya nb = N ∧
        profit_of N ya nb = N * (1 / (ya + nb) - 1))
    ∧ (yb + na < 1 →
        bet_leg1 N yb na + bet_leg2 N yb na = N ∧
        profit_of N yb na = N * (1 / (yb + na) - 1))
    ∧ (∀ r, calculate_arbitrage ya nb yb na N = some r →
        r = dir1Doc ya nb N ∨ r = dir2Doc yb na N) := by
  refine ⟨?_, ?_, ?_, ?_⟩
  · rintro ⟨h1, h2⟩
    simp [calculate_arbitrage, not_lt.2 h1, not_lt.2 h2]
  · intro _
    have hc : ya + nb ≠ 0 := ne_of_gt (add_pos hya hnb)
    constructor
    · unfold bet_leg1 bet_leg2
      field_simp
      ring
    · unfold profit_of payout_of bet_leg1
      have hy : ya ≠ 0 := ne_of_gt hya
      field_simp
      ring
  · intro _
    have hc : yb + na ≠ 0 := ne_of_gt (add_pos hyb hna)
    constructor
    · unfold bet_leg1 bet_leg2
      field_simp
      ring
    · unfold profit_of payout_of bet_leg1
      have hy : yb ≠ 0 := ne_of_gt hyb
      field_simp
      ring
  · intro r hr
    unfold calculate_arbitrage at hr
    split at hr
    · exact Or.inl (Option.some.inj hr).symm
    · split at hr
      · exact Or.inr (Option.some.inj hr).symm
      · exact absurd hr (by simp)

/-- Witness for C1 at concrete inputs: a both-directions-stale quote pair
returns `None`, and the direction with combined cost 91/100 splits the
notional 100 exactly. -/
theorem C1_stake_sizing_witness :
    calculate_arbitrage (3/5) (3/5) (3/5) (3/5) 100 = none ∧
    bet_leg1 100 (47/100) (11/25) + bet_leg2 100 (47/100) (11/25) = 100 := by
  constructor
  · exact (C1_stake_sizing (3/5) (3/5) (3/5) (3/5) 100 (by norm_num)
      (by norm_num) (by norm_num) (by norm_num) (by norm_num)).1
      ⟨by norm_num, by norm_num⟩
  · exact ((C1_stake_sizing (47/100) (11/25) (3/5) (3/5) 100 (by norm_num)
      (by norm_num) (by norm_num) (by norm_num) (by norm_num)).2.1
      (by norm_num)).1

/-- C10: when both hedge directions are profitable with exactly equal profit
percentages, the solver returns direction 2 (the "yes" leg on venue B and
the "no" leg on venue A), because the direction-1 branch requires the strict
comparison `profit_pct_1 > profit_pct_2`. -/
theorem C10_tie_selects_direction2 (ya nb yb na N : ℚ)
    (h1 : ya + nb < 1) (h2 : yb + na < 1)
    (heq : profit_pct_of N ya nb = profit_pct_of N yb na) :
    calculate_arbitrage ya nb yb na N = some (dir2Doc yb na N) := by
  unfold calculate_arbitrage
  have hnot : ¬ (ya + nb < 1 ∧
      (¬ yb + na < 1 ∨ profit_pct_of N yb na < profit_pct_of N ya nb)) := by
    rintro ⟨-, h | h⟩
    · exact h h2
    · rw [heq] at h
      exact lt_irrefl _ h
  rw [if_neg hnot, if_pos h2]

/-- Witness for C10: both directions have combined cost 9/10 and hence equal
profit percentages; the solver returns the direction-2 document. -/
theorem C10_tie_selects_direction2_witness :
    calculate_arbitrage (2/5) (1/2) (9/20) (9/20) 100
      = some (dir2Doc (9/20) (9/20) 100) :=
  C10_tie_selects_direction2 (2/5) (1/2) (9/20) (9/20) 100 (by norm_num)
    (by norm_num)
    (by norm_num [profit_pct_of, profit_of, payout_of, bet_leg1])

/-- C2: evaluation of the matcher at the spec scenario and at a failing
input.  Scenario (second conjunct): quotes PM yes=0.58/no=0.44, Kalshi
yes=0.47/no=0.53 with notional 100 give platform_a = kalshi, profit_pct
9.8901, bet_amount_a 51.65, bet_amount_b 48.35 — as claimed.  Failing input
(first conjunct): PM yes=0.40/no=0.50, Kalshi yes=0.40/no=0.55 — the solver
selects direction 2 (the "yes" leg is Kalshi's), but because the two venues'
yes prices differ by less than 0.001 the emitted candidate is labeled
platform_a = polymarket, contradicting the claim that platform_a is the venue
of the selected direction's "yes" leg. -/
theorem C2_venue_assignment_eval :
    (calculate_arbitrage (2/5) (11/20) (2/5) (1/2) 100
        = some (dir2Doc (2/5) (1/2) 100)
      ∧ (find_arbitrage_opportunities [⟨"pm1", "evt", 2/5, 1/2⟩]
          [⟨"k1", "evt", 2/5, 11/20⟩]).map (fun r => r.platform_a)
        = ["polymarket"])
    ∧ (find_arbitrage_opportunities [⟨"pm2", "fed rate cut", 29/50, 11/25⟩]
          [⟨"k2", "fed rate cut", 47/100, 53/100⟩]).map
          (fun r => (r.platform_a, r.profit_percentage, r.bet_amount_a,
            r.bet_amount_b))
        = [("kalshi", 98901/10000, 1033/20, 967/20)] := by
  have hcalc1 : calculate_arbitrage (2/5) (11/20) (2/5) (1/2) 100
      = some (dir2Doc (2/5) (1/2) 100) := by
    norm_num [calculate_arbitrage, profit_pct_of, profit_of, payout_of,
      bet_leg1]
  have hcalc2 : calculate_arbitrage (29/50) (53/100) (47/100) (11/25) 100
      = some (dir2Doc (47/100) (11/25) 100) := by
    norm_num [calculate_arbitrage, profit_pct_of, profit_of, payout_of,
      bet_leg1]
  have hlk1 : kalshi_lookup [⟨"k1", "evt", 2/5, 11/20⟩] (normalize_name "evt")
      = some ⟨"k1", "evt", 2/5, 11/20⟩ := by
    simp [kalshi_lookup, List.filter]
  have hlk2 : kalshi_lookup [⟨"k2", "fed rate cut", 47/100, 53/100⟩]
      (normalize_name "fed rate cut")
      = some ⟨"k2", "fed rate cut", 47/100, 53/100⟩ := by
    simp [kalshi_lookup, List.filter]
  have hpos1 : (0:ℚ) < (dir2Doc (2/5) (1/2) 100).profit_percentage := by
    norm_num [dir2Doc, pyRound, bankersRound, profit_pct_of, profit_of,
      payout_of, bet_leg1]
  have hpos2 : (0:ℚ) < (dir2Doc (47/100) (11/25) 100).profit_percentage := by
    norm_num [dir2Doc, pyRound, bankersRound, profit_pct_of, profit_of,
      payout_of, bet_leg1]
  refine ⟨⟨hcalc1, ?_⟩, ?_⟩
  · simp only [find_arbitrage_opportunities, List.filterMap_cons,
      List.filterMap_nil, hlk1, hcalc1]
    rw [if_pos hpos1]
    simp only [label_direction, dir2Doc]
    norm_num
  · simp only [find_arbitrage_opportunities, List.filterMap_cons,
      List.filterMap_nil, hlk2, hcalc2]
    rw [if_pos hpos2]
    simp only [label_direction, dir2Doc]
    rw [if_neg (not_lt.mpr (le_abs.mpr (Or.inr (by norm_num))))]
    simp only [List.map_cons, List.map_nil]
    norm_num [pyRound, bankersRound, profit_pct_of, profit_of, payout_of,
      bet_leg1, bet_leg2]

/-- A concrete detected opportunity used to exercise the store. -/
def sampleOpp : ArbResult :=
  { platform_a := "polymarket"
    platform_b := "kalshi"
    event_name := "evt"
    platform_a_outcome := "yes"
    platform_a_price := 2/5
    platform_b_outcome := "no"
    platform_b_price := 2/5
    bet_amount_a := 50
    bet_amount_b := 50
    total_investment := 100
    guaranteed_payout := 125
    profit := 25
    profit_percentage := 25
    combined_probability := 4/5 }

/-- C3 evaluation: storing the same logical opportunity twice.  Each store
call evaluates `str(uuid.uuid4())` afresh (indeed twice, giving different
`_id` and `opportunity_id` within one document), so the second store's upsert
key matches nothing and a second record is inserted instead of replacing the
first, and no two of the four generated identifiers coincide. -/
theorem C3_opportunity_id_eval :
    (store_arbitrage_opportunities [sampleOpp] [] 0 0).1.length = 1
    ∧ ((store_arbitrage_opportunities [sampleOpp]
        (store_arbitrage_opportunities [sampleOpp] [] 0 0).1 0
        (store_arbitrage_opportunities [sampleOpp] [] 0 0).2).1.length = 2)
    ∧ ((store_arbitrage_opportunities [sampleOpp]
        (store_arbitrage_opportunities [sampleOpp] [] 0 0).1 0
        (store_arbitrage_opportunities [sampleOpp] [] 0 0).2).1.map
          (fun d => d.opportunity_id) = ["uuid-1", "uuid-3"])
    ∧ ((store_arbitrage_opportunities [sampleOpp]
        (store_arbitrage_opportunities [sampleOpp] [] 0 0).1 0
        (store_arbitrage_opportunities [sampleOpp] [] 0 0).2).1.map
          (fun d => d.mongo_id) = ["uuid-0", "uuid-2"]) := by
  refine ⟨?_, ?_, ?_, ?_⟩ <;>
    simp [store_arbitrage_opportunities, create_arbitrage_opportunity_doc,
      expire_stale, upsert_opportunity, uuid4, sampleOpp, List.foldl,
      show ("uuid-" ++ toString 1) ≠ ("uuid-" ++ toString 3) from by decide] <;>
    decide

/-- The example event name with a straight apostrophe. -/
def fedStraight : String :=
  String.mk ['F', 'e', 'd', Char.ofNat 39, 's', ' ', 'R', 'a', 't', 'e',
    ' ', 'C', 'u', 't', '?']

/-- The example event name with a curly (U+2019) apostrophe. -/
def fedCurly : String :=
  String.mk ['F', 'e', 'd', Char.ofNat 8217, 's', ' ', 'R', 'a', 't', 'e',
    ' ', 'C', 'u', 't', '?']

/-- C4 counterexample: the curly-quote variant of the claim fails.
`normalize_name` only strips the straight quote characters, so a name with a
curly apostrophe does not normalize to its quote-free form and the matcher
finds no pair, even at prices that would otherwise be a profitable
arbitrage. -/
theorem C4_counterexample_curly_quote :
    normalize_name fedCurly ≠ normalize_name "feds rate cut?"
    ∧ find_arbitrage_opportunities [⟨"pm1", fedCurly, 2/5, 1/2⟩]
        [⟨"k1", "feds rate cut?", 2/5, 2/5⟩] = [] := by
  constructor
  · decide
  · simp [find_arbitrage_opportunities, kalshi_lookup, List.filter,
      show (normalize_name "feds rate cut?" == normalize_name fedCurly)
        = false from by decide]

/-- C4 amended: event-name matching is invariant under letter case,
surrounding whitespace, and straight quote characters — any two event names
with equal normalizations are matched by `find_arbitrage_opportunities`
(here at prices admitting a direction-1 arbitrage) — and in particular
`Fed's Rate Cut?` (straight apostrophe) normalizes equal to
`feds rate cut?`, as do case/whitespace variants; curly quotes, however,
are not stripped. -/
theorem C4_amended_matching (a b : String)
    (h : normalize_name a = normalize_name b) :
    find_arbitrage_opportunities [⟨"pm1", a, 2/5, 1/2⟩] [⟨"k1", b, 2/5, 2/5⟩]
      = [label_direction (dir1Doc (2/5) (2/5) 100) ⟨"pm1", a, 2/5, 1/2⟩]
    ∧ normalize_name fedStraight = normalize_name "feds rate cut?"
    ∧ normalize_name "  FEDS Rate Cut?  " = normalize_name "feds rate cut?" := by
  refine ⟨?_, by decide, by decide⟩
  have hb : (normalize_name b == normalize_name a) = true :=
    beq_iff_eq.mpr h.symm
  have hlk : kalshi_lookup [⟨"k1", b, 2/5, 2/5⟩] (normalize_name a)
      = some ⟨"k1", b, 2/5, 2/5⟩ := by
    simp [kalshi_lookup, List.filter, hb]
  have hcalc : calculate_arbitrage (2/5) (2/5) (2/5) (1/2) 100
      = some (dir1Doc (2/5) (2/5) 100) := by
    norm_num [calculate_arbitrage, profit_pct_of, profit_of, payout_of,
      bet_leg1]
  have hpos : (0:ℚ) < (dir1Doc (2/5) (2/5) 100).profit_percentage := by
    norm_num [dir1Doc, pyRound, bankersRound, profit_pct_of, profit_of,
      payout_of, bet_leg1]
  simp only [find_arbitrage_opportunities, List.filterMap_cons,
    List.filterMap_nil, hlk, hcalc]
  rw [if_pos hpos]

/-- Witness for C4: the straight-apostrophe example pair is matched. -/
theorem C4_amended_matching_witness :
    find_arbitrage_opportunities [⟨"pm1", fedStraight, 2/5, 1/2⟩]
        [⟨"k1", "feds rate cut?", 2/5, 2/5⟩]
      = [label_direction (dir1Doc (2/5) (2/5) 100)
          ⟨"pm1", fedStraight, 2/5, 1/2⟩] :=
  (C4_amended_matching fedStraight "feds rate cut?" (by decide)).1

/-- C5 counterexample: with `maxRetries = 5` and base delay 1s, an operation
failing on every attempt is followed by exactly the four backoff sleeps
1, 2, 4, 8 — the final attempt (index 4) is not followed by a sleep, so the
claimed sleep sequence 1, 2, 4, 8, 16 does not occur. -/
theorem C5_counterexample_backoff :
    (fetch_with_retry (fun _ => (Except.error "boom" : Except String (Option Unit)))
        5 1).2.1 = [1, 2, 4, 8]
    ∧ [1, 2, 4, 8] ≠ ([1, 2, 4, 8, 16] : List ℕ) := by
  constructor
  · decide
  · decide

/-- C5 amended: for a fetch whose operation fails on every attempt with
`maxRetries = 5` and base delay 1s, the orchestrator sleeps exactly
`baseDelay * 2^attemptIndex` before each retry, i.e. 1, 2, 4, 8 seconds for
attempt indexes 0 through 3; the final attempt (index 4) is not followed by a
sleep, and no data is returned. -/
theorem C5_amended_backoff {α : Type} (f : ℕ → Except String (Option α))
    (h : ∀ i, ∃ e, f i = Except.error e) :
    (fetch_with_retry f 5 1).2.1 = [1 * 2 ^ 0, 1 * 2 ^ 1, 1 * 2 ^ 2, 1 * 2 ^ 3]
    ∧ (fetch_with_retry f 5 1).1 = none := by
  obtain ⟨e0, h0⟩ := h 0
  obtain ⟨e1, h1⟩ := h 1
  obtain ⟨e2, h2⟩ := h 2
  obtain ⟨e3, h3⟩ := h 3
  obtain ⟨e4, h4⟩ := h 4
  constructor <;>
    simp [fetch_with_retry, fetch_go, h0, h1, h2, h3, h4]

/-- Witness for C5 at a concrete always-failing operation. -/
theorem C5_amended_backoff_witness :
    (fetch_with_retry (fun _ => (Except.error "down" : Except String (Option Unit)))
        5 1).2.1 = [1 * 2 ^ 0, 1 * 2 ^ 1, 1 * 2 ^ 2, 1 * 2 ^ 3]
    ∧ (fetch_with_retry (fun _ => (Except.error "down" : Except String (Option Unit)))
        5 1).1 = none :=
  C5_amended_backoff (fun _ => Except.error "down") (fun _ => ⟨"down", rfl⟩)

/-- Helper for C8: under an all-errors operation, any run of the retry loop
with at least one remaining attempt returns no data and writes a log whose
final entry is the terminal `fetch_data`/`failure` record. -/
lemma fetch_go_all_errors {α : Type} (f : ℕ → Except String (Option α))
    (mr d : ℕ) (hf : ∀ i, ∃ e, f i = Except.error e) :
    ∀ fuel attempt, attempt + fuel = mr → 0 < fuel →
      (fetch_go f mr d attempt fuel).1 = none ∧
      ∃ l e, (fetch_go f mr d attempt fuel).2.2 = l ++ [failure_log e] := by
  intro fuel
  induction fuel with
  | zero => intro _ _ hpos; exact absurd hpos (lt_irrefl 0)
  | succ n ih =>
    intro attempt hsum _
    obtain ⟨e, he⟩ := hf attempt
    by_cases hlt : attempt + 1 < mr
    · have hn : 0 < n := by omega
      obtain ⟨ihres, l, e2, ihlog⟩ := ih (attempt + 1) (by omega) hn
      constructor
      · simp [fetch_go, he, hlt, ihres]
      · exact ⟨retry_log e :: l, e2, by simp [fetch_go, he, hlt, ihlog]⟩
    · constructor
      · simp [fetch_go, he, hlt]
      · exact ⟨[], e, by simp [fetch_go, he, hlt]⟩

/-- C8: the retry orchestrator never propagates a failure of the wrapped
operation: for any positive retry budget and any operation that raises on
every attempt, `fetch_with_retry` returns "no data" (`none`) — rather than an
error — and its task log ends with the terminal `fetch_data`/`failure`
entry. -/
theorem C8_retry_never_raises {α : Type} (f : ℕ → Except String (Option α))
    (mr d : ℕ) (hmr : 0 < mr) (hf : ∀ i, ∃ e, f i = Except.error e) :
    (fetch_with_retry f mr d).1 = none ∧
    ∃ l e, (fetch_with_retry f mr d).2.2 = l ++ [failure_log e] :=
  fetch_go_all_errors f mr d hf mr 0 (by omega) hmr

/-- Witness for C8 at the default retry budget and a concrete operation. -/
theorem C8_retry_never_raises_witness :
    (fetch_with_retry (fun _ => (Except.error "down" : Except String (Option Unit)))
        5 1).1 = none ∧
    ∃ l e, (fetch_with_retry
        (fun _ => (Except.error "down" : Except String (Option Unit)))
        5 1).2.2 = l ++ [failure_log e] :=
  C8_retry_never_raises (fun _ => Except.error "down") 5 1 (by omega)
    (fun _ => ⟨"down", rfl⟩)

/-- C6: `monitor_positions` never touches a position already in a terminal
state: the scan filter only admits states `watching` and `entered`, so the
document at any index whose state is terminal is unchanged — re-running the
monitor on an already-expired position is a no-op. -/
theorem C6_monitor_skips_terminal (now : ℕ) (res : ℚ) (db : List Position)
    (i : ℕ) (h : i < db.length)
    (hterm : ¬ is_active_position (db.get ⟨i, h⟩)) :
    ∃ h2 : i < (monitor_positions now res db).1.length,
      (monitor_positions now res db).1.get ⟨i, h2⟩ = db.get ⟨i, h⟩ := by
  have hlen : (monitor_positions now res db).1.length = db.length := by
    simp [monitor_positions]
  refine ⟨by omega, ?_⟩
  have hget : (monitor_positions now res db).1.get ⟨i, by omega⟩
      = (monitor_step now res (db.get ⟨i, h⟩)).1 := by
    simp [monitor_positions, List.get_eq_getElem, List.getElem_map]
  rw [hget]
  unfold monitor_step
  rw [if_neg hterm]

/-- A terminal (already expired and resolved) position used as witness. -/
def expiredPos : Position :=
  ⟨"pos-1", "evt", "polymarket", "kalshi", 50, 50, 10, some 100, "Economic",
    "expired", 0, 150, some 10, some 150⟩

/-- Witness for C6: monitoring a collection holding one expired position at a
later time leaves it exactly as it was. -/
theorem C6_monitor_skips_terminal_witness :
    ∃ h2 : 0 < (monitor_positions 200 1 [expiredPos]).1.length,
      (monitor_positions 200 1 [expiredPos]).1.get ⟨0, h2⟩
        = [expiredPos].get ⟨0, by decide⟩ :=
  C6_monitor_skips_terminal 200 1 [expiredPos] 0 (by decide) (by decide)

/-- C7: `monitor_positions` transitions every scanned position in state
`watching` or `entered` whose expiration date is before the monitoring time
to state `expired` with `actual_profit` set and `resolved_at` non-null,
merely refreshes `last_checked` on active positions not past expiration, and
returns the count of positions so transitioned. -/
theorem C7_monitor_expiration (now : ℕ) (res : ℚ) (db : List Position) :
    (monitor_positions now res db).1
      = db.map (fun p => (monitor_step now res p).1)
    ∧ (monitor_positions now res db).2
      = db.countP (fun p =>
          decide (is_active_position p) && decide (is_past_expiration now p))
    ∧ (∀ p, is_active_position p → is_past_expiration now p →
        (monitor_step now res p)
          = ({ p with
                state := "expired"
                last_checked := now
                actual_profit := some (p.target_profit * res)
                resolved_at := some now }, true))
    ∧ (∀ p, is_active_position p → ¬ is_past_expiration now p →
        monitor_step now res p = ({ p with last_checked := now }, false)) := by
  have hstep : ∀ p, (monitor_step now res p).2
      = (decide (is_active_position p) && decide (is_past_expiration now p)) := by
    intro p
    by_cases ha : is_active_position p
    · cases hexp : p.expiration_date with
      | none => simp [monitor_step, is_past_expiration, ha, hexp]
      | some e =>
        by_cases he : e < now
        · simp [monitor_step, is_past_expiration, ha, hexp, he]
        · simp [monitor_step, is_past_expiration, ha, hexp, he]
    · simp [monitor_step, is_past_expiration, ha]
  refine ⟨rfl, ?_, ?_, ?_⟩
  · exact List.countP_congr (fun p _ => by rw [hstep p])
  · intro p ha hpast
    cases hexp : p.expiration_date with
    | none =>
      simp only [is_past_expiration, hexp] at hpast
    | some e =>
      simp only [is_past_expiration, hexp] at hpast
      simp [monitor_step, ha, hexp, hpast, update_position_state]
  · intro p ha hpast
    cases hexp : p.expiration_date with
    | none => simp [monitor_step, ha, hexp]
    | some e =>
      simp only [is_past_expiration, hexp] at hpast
      simp [monitor_step, ha, hexp, hpast]

/-- A position created with a 30-day expiration, in state `watching`. -/
def watchPos : Position :=
  ⟨"pos-2", "nba finals", "polymarket", "kalshi", 50, 50, 10, some 30,
    "Sports", "watching", 0, 0, none, none⟩

/-- Witness for C7: monitoring `watchPos` at day 31 expires it, sets
`actual_profit` and `resolved_at`, and counts it. -/
theorem C7_monitor_expiration_witness :
    monitor_step 31 1 watchPos
      = ({ watchPos with
            state := "expired"
            last_checked := 31
            actual_profit := some (watchPos.target_profit * 1)
            resolved_at := some 31 }, true) :=
  (C7_monitor_expiration 31 1 []).2.2.1 watchPos (Or.inl rfl) (by decide)

end ArbHunter

namespace ArbHunter

/-- A Sports-category position with the given id and target profit. -/
def sportsPos (pid : String) (tp : ℚ) : Position :=
  ⟨pid, "nba finals", "polymarket", "kalshi", 50, 50, tp, some 100, "Sports",
    "watching", 0, 0, none, none⟩

/-- Four positions in category Sports, three with positive target profit. -/
def sportsDb : List Position :=
  [sportsPos "p1" 2, sportsPos "p2" 4, sportsPos "p3" 6, sportsPos "p4" 0]

/-- C9: `calculate_historical_performance` groups all positions by
`market_type` and emits, per category, `opportunities_found` = position
count, `profitable_arbs` = count of positions with `target_profit > 0`, and
`success_rate = profitable_arbs / opportunities_found * 100`; in particular 4
positions in one category with 3 profitable yield `success_rate = 75`. -/
theorem C9_performance (db : List Position) :
    (∀ d, d ∈ calculate_historical_performance db →
      d.opportunities_found
          = (db.filter (fun p => p.market_type == d.market_type)).length
        ∧ d.profitable_arbs
          = ((db.filter (fun p => p.market_type == d.market_type)).filter
              (fun p => decide (0 < p.target_profit))).length
        ∧ (0 < d.opportunities_found →
            d.success_rate
              = (d.profitable_arbs : ℚ) / (d.opportunities_found : ℚ) * 100))
    ∧ calculate_historical_performance sportsDb = [⟨"Sports", 4, 3, 3, 75⟩] := by
  constructor
  · intro d hd
    obtain ⟨t, ht, rfl⟩ := List.mem_map.1 hd
    refine ⟨rfl, rfl, ?_⟩
    intro hpos
    simp only [create_market_performance_doc] at hpos ⊢
    rw [if_pos hpos]
  · norm_num [calculate_historical_performance, sportsDb, sportsPos,
      create_market_performance_doc, List.dedup_cons_of_mem,
      List.dedup_cons_of_not_mem, List.filter]
    simp

/-- Witness for C9: the Sports category document of `sportsDb` has success
rate `3 / 4 * 100 = 75`. -/
theorem C9_performance_witness :
    (⟨"Sports", 4, 3, 3, 75⟩ : PerfDoc).success_rate
      = ((⟨"Sports", 4, 3, 3, 75⟩ : PerfDoc).profitable_arbs : ℚ)
        / ((⟨"Sports", 4, 3, 3, 75⟩ : PerfDoc).opportunities_found : ℚ) * 100 := by
  have h := (C9_performance sportsDb).1 ⟨"Sports", 4, 3, 3, 75⟩
    (by rw [(C9_performance sportsDb).2]; exact List.mem_singleton.2 rfl)
  exact h.2.2 (by norm_num)

end ArbHunter
